import Mathlib

/-!
Verification of the Happy Thoughts API (casalm26/js-project-api).

Shallow embedding of the data model and the operations of the repository:
the Thought schema of src/models/Thought.js (pre-save hook, toggleLike
instance method), the route handlers of src/routes/thoughts.js and
src/src/routes/thoughts.js (like toggle, edit, delete, list pipeline),
the query validation middleware, and the login controller of
src/controllers/authController.js.

User identifiers (Mongo ObjectIds in the source) are modelled as natural
numbers; ObjectId equality in the source is value equality, matching
Nat equality here.  Message strings are modelled as lists of characters
so that the trim operation of JavaScript is an executable list function.
Hearts counters are integers, since the Mongo update operator inc used by
the route handlers can in principle drive the stored number below zero.
-/

set_option maxRecDepth 16384

namespace HappyThoughts

abbrev UserId := Nat

/-- Thought document, from the schema in src/models/Thought.js:
message, category, hearts (default 0), likedBy (array of user ids),
owner (nullable user reference). -/
structure Thought where
  message : List Char
  category : String
  hearts : Int
  likedBy : List UserId
  owner : Option UserId
  deriving Repr, DecidableEq

/-- Whitespace test used by the JavaScript string trim operation
(restricted to the ASCII whitespace characters that can occur here). -/
def isJsSpace (c : Char) : Bool :=
  c = ' ' || c = '\t' || c = '\n' || c = '\r'

/-- JavaScript String.prototype.trim: drop whitespace from both ends. -/
def jsTrim (m : List Char) : List Char :=
  ((m.dropWhile isJsSpace).reverse.dropWhile isJsSpace).reverse

/-- Pre-save middleware of src/models/Thought.js (lines 76-80): on every
save, hearts is overwritten with the length of the likedBy array. -/
def preSaveSync (t : Thought) : Thought :=
  { t with hearts := (t.likedBy.length : Int) }

/-- Body of the toggleLike instance method of src/models/Thought.js
(lines 53-68), before the final save: membership test on likedBy, then
either filter the id out and decrement hearts (floored at 0 by Math.max),
or push the id and increment hearts. -/
def toggleLikeCore (u : UserId) (t : Thought) : Thought :=
  if t.likedBy.contains u then
    { t with likedBy := t.likedBy.filter (fun v => v != u),
             hearts := max 0 (t.hearts - 1) }
  else
    { t with likedBy := t.likedBy ++ [u], hearts := t.hearts + 1 }

/-- The toggleLike instance method ends with this.save(), which runs the
pre-save hook; the persisted document is the hook applied to the mutated
document. -/
def toggleLikeMethod (u : UserId) (t : Thought) : Thought :=
  preSaveSync (toggleLikeCore u t)

/-- Membership check of the like route handler
(src/routes/thoughts.js line 221: thought.likedBy.includes(userId)). -/
def hasLiked (t : Thought) (u : UserId) : Bool :=
  t.likedBy.contains u

/-- Mongo update of the like branch (src/routes/thoughts.js lines
236-243): addToSet appends the id unless already present, and inc adds
one to hearts.  Applied by findByIdAndUpdate, so the pre-save hook does
not run. -/
def likeUpdate (u : UserId) (t : Thought) : Thought :=
  { t with likedBy := if t.likedBy.contains u then t.likedBy else t.likedBy ++ [u],
           hearts := t.hearts + 1 }

/-- Mongo update of the unlike branch (src/routes/thoughts.js lines
226-233): pull removes every occurrence of the id, and inc subtracts one
from hearts.  Applied by findByIdAndUpdate, so the pre-save hook does
not run. -/
def unlikeUpdate (u : UserId) (t : Thought) : Thought :=
  { t with likedBy := t.likedBy.filter (fun v => v != u),
           hearts := t.hearts - 1 }

/-- Sequential effect of one request to POST /thoughts/:id/like
(src/routes/thoughts.js lines 206-264): read the thought, test
membership, then apply the corresponding atomic update. -/
def toggleLikeRoute (u : UserId) (t : Thought) : Thought :=
  if hasLiked t u then unlikeUpdate u t else likeUpdate u t

/-- Thought constructed by POST /thoughts (src/routes/thoughts.js lines
124-134): trimmed message, category, given owner, hearts 0, empty
likedBy; saving it runs the pre-save hook. -/
def createThought (msg : List Char) (category : String) (owner : Option UserId) : Thought :=
  preSaveSync { message := jsTrim msg, category := category, hearts := 0,
                likedBy := [], owner := owner }

/-! ### Two-phase execution model of the like route

The handler of POST /thoughts/:id/like performs two separate round trips
to the store: findById (the membership read) and findByIdAndUpdate (the
atomic update).  Concurrent requests interleave these phases.  An event
is one phase of one request; the recorded decision of a request is the
membership answer of its read phase. -/

/-- Progress of one like request through the two round trips of the
handler. -/
inductive Phase where
  | idle
  | readDone
  | done
  deriving Repr, DecidableEq

/-- One round trip of one like request: the findById read or the
findByIdAndUpdate write, tagged with the requesting user. -/
inductive Event where
  | read (u : UserId)
  | write (u : UserId)
  deriving Repr, DecidableEq

/-- Store state plus the membership decisions recorded by reads that
have already executed. -/
structure ExecState where
  t : Thought
  dec : UserId → Option Bool

/-- Effect of one round trip: a read records hasLiked of the current
store state; a write applies the update chosen by the recorded
decision (pull plus dec, or addToSet plus inc). -/
def stepEvent (s : ExecState) (e : Event) : ExecState :=
  match e with
  | Event.read u =>
      { s with dec := fun v => if v = u then some (hasLiked s.t u) else s.dec v }
  | Event.write u =>
      match s.dec u with
      | none => s
      | some true => { s with t := unlikeUpdate u s.t }
      | some false => { s with t := likeUpdate u s.t }

/-- Run an interleaving of round trips against the store. -/
def runEvents (s : ExecState) (evs : List Event) : ExecState :=
  evs.foldl stepEvent s

/-- Store state before any request: the target thought, no recorded
decisions. -/
def freshExecState (t : Thought) : ExecState :=
  { t := t, dec := fun _ => none }

/-- Complete interleavings of one like request per user of us: each
user reads before writing, and at the end every user has written.
The function argument tracks the phase each user has reached. -/
inductive ValidFrom (us : List UserId) : (UserId → Phase) → List Event → Prop where
  | stop : ∀ st, (∀ u, u ∈ us → st u = Phase.done) → ValidFrom us st []
  | read : ∀ st u evs, u ∈ us → st u = Phase.idle →
      ValidFrom us (fun v => if v = u then Phase.readDone else st v) evs →
      ValidFrom us st (Event.read u :: evs)
  | write : ∀ st u evs, u ∈ us → st u = Phase.readDone →
      ValidFrom us (fun v => if v = u then Phase.done else st v) evs →
      ValidFrom us st (Event.write u :: evs)

/-! ### Edit and delete handlers (src/routes/thoughts.js) -/

/-- PUT /thoughts/:id (src/routes/thoughts.js lines 267-341) on an
existing thought, for an authenticated caller: empty trimmed message is
rejected with 400; then the temporary debug logging at line 293 reads
thought.owner._id, which throws a TypeError when owner is null, and the
catch block maps that to 500; then the ownership check returns 403
unless owner equals the caller; on success findByIdAndUpdate stores the
trimmed message (schema validators do not run on update).  Returns the
status and the stored document afterwards. -/
def putThoughtHandler (t : Thought) (uid : UserId) (msg : List Char) : Nat × Thought :=
  if jsTrim msg = [] then (400, t)
  else
    match t.owner with
    | none => (500, t)
    | some o =>
        if o = uid then (200, { t with message := jsTrim msg }) else (403, t)

/-- DELETE /thoughts/:id (src/routes/thoughts.js lines 344-394) on an
existing thought: 403 unless owner is non-null and equals the caller;
on success the document is removed (result none). -/
def deleteThoughtHandler (t : Thought) (uid : UserId) : Nat × Option Thought :=
  match t.owner with
  | none => (403, some t)
  | some o => if o = uid then (200, none) else (403, some t)

/-! ### List query validation, sorting and pagination -/

/-- Allow-list of the validateThoughtsQuery middleware sort check
(src/middleware/validation.js, unnamed part_004 lines 15-22). -/
def validSortFields : List String :=
  ["hearts", "createdAt", "updatedAt", "category", "_id", "message"]

/-- Allow-list of the buildSortObject helper
(src/src/routes/thoughts.js line 13). -/
def allowedSortFields : List String :=
  ["createdAt", "updatedAt", "hearts", "category"]

/-- Test for the leading descending-direction dash of a sort parameter
(String.prototype.startsWith in the source), computed on the underlying
character list. -/
def startsWithDash (s : String) : Bool :=
  match s.data with
  | [] => false
  | c :: _ => c = Char.ofNat 45

/-- Strip the leading descending-direction dash from a sort parameter. -/
def sortFieldName (s : String) : String :=
  if startsWithDash s then s.drop 1 else s

/-- Sort clause of validateThoughtsQuery: an absent or empty (falsy)
sort parameter is skipped; otherwise the field must be in the
validation allow-list, else the request is rejected with 400. -/
def sortParamValid (s : Option String) : Bool :=
  match s with
  | none => true
  | some s => if s = "" then true else validSortFields.contains (sortFieldName s)

/-- buildSortObject (src/src/routes/thoughts.js lines 50-61): default
newest-first by createdAt; a dash prefix reverses direction; fields
outside the allow-list fall back to the default. -/
def buildSortObject (s : Option String) : String × Int :=
  match s with
  | none => ("createdAt", -1)
  | some s =>
      if s = "" then ("createdAt", -1)
      else
        let desc := startsWithDash s
        let f := sortFieldName s
        if allowedSortFields.contains f then (f, if desc then -1 else 1)
        else ("createdAt", -1)

/-- Sort outcome of a GET /thoughts request: the validation middleware
runs first and rejects with 400; only then does the handler build the
sort object. -/
def listThoughtsSortOutcome (s : Option String) : Except Nat (String × Int) :=
  if sortParamValid s then Except.ok (buildSortObject s) else Except.error 400

/-- Result of parseInt on a query parameter: absent (or empty, falsy),
not a number, or a parsed integer. -/
inductive QueryParam where
  | absentP
  | nanP
  | numP (n : Int)
  deriving Repr, DecidableEq

/-- Page clause of validateThoughtsQuery (unnamed part_004 lines 5-8):
present page must parse and be at least 1. -/
def validatePageParam (p : QueryParam) : Bool :=
  match p with
  | QueryParam.absentP => true
  | QueryParam.nanP => false
  | QueryParam.numP n => decide (1 ≤ n)

/-- Limit clause of validateThoughtsQuery (unnamed part_004 lines
10-13): present limit must parse and lie between 1 and 100. -/
def validateLimitParam (p : QueryParam) : Bool :=
  match p with
  | QueryParam.absentP => true
  | QueryParam.nanP => false
  | QueryParam.numP n => decide (1 ≤ n) && decide (n ≤ 100)

/-- JavaScript parseInt(x) with a falsy fallback: NaN and 0 are falsy
and give the default. -/
def jsOrDefault (p : QueryParam) (d : Int) : Int :=
  match p with
  | QueryParam.numP n => if n = 0 then d else n
  | _ => d

/-- calculatePagination (src/src/routes/thoughts.js lines 63-69):
page defaults to 1, limit to 20, skip is computed; no clamping. -/
def calculatePagination (page limit : QueryParam) : Int × Int × Int :=
  let pageNum := jsOrDefault page 1
  let limitNum := jsOrDefault limit 20
  (pageNum, limitNum, (pageNum - 1) * limitNum)

/-- Pagination outcome of a GET /thoughts request: validation rejects
bad page or limit with 400, otherwise the handler computes
(pageNum, limitNum, skip). -/
def listThoughtsPageOutcome (page limit : QueryParam) : Except Nat (Int × Int × Int) :=
  if validatePageParam page && validateLimitParam limit then
    Except.ok (calculatePagination page limit)
  else Except.error 400

/-- Math.ceil of totalCount divided by limit on natural numbers
(exact for positive limit). -/
def jsCeilDiv (a b : Nat) : Nat := (a + b - 1) / b

/-- Pagination metadata block returned by GET /thoughts. -/
structure PaginationMeta where
  currentPage : Nat
  totalPages : Nat
  totalCount : Nat
  hasNextPage : Bool
  hasPrevPage : Bool
  deriving Repr, DecidableEq

/-- createPaginationMetadata (src/src/routes/thoughts.js lines 71-80):
totalPages is the ceiling of totalCount over limit, hasNextPage compares
the page against it, hasPrevPage compares the page against 1. -/
def createPaginationMetadata (pageNum totalCount limitNum : Nat) : PaginationMeta :=
  { currentPage := pageNum
    totalPages := jsCeilDiv totalCount limitNum
    totalCount := totalCount
    hasNextPage := decide (pageNum < jsCeilDiv totalCount limitNum)
    hasPrevPage := decide (1 < pageNum) }

/-! ### Login (src/controllers/authController.js) -/

/-- Stored user record: email key and the salted password hash.
Password verification (bcrypt compare) is an external collaborator,
passed as an abstract function. -/
structure StoredUser where
  email : String
  passwordHash : String
  deriving Repr, DecidableEq

/-- User.findOne on the email key. -/
def findOneByEmail (users : List StoredUser) (email : String) : Option StoredUser :=
  users.find? (fun u => u.email == email)

/-- login (src/controllers/authController.js lines 65-111): missing
credentials give 400; unknown email gives 401 with the fixed message;
a known email with a failing hash comparison gives the same 401 pair;
success gives 200.  Returns status and response message. -/
def loginHandler (verify : String → String → Bool) (users : List StoredUser)
    (email password : String) : Nat × String :=
  if email = "" || password = "" then
    (400, "Email and password are required")
  else
    match findOneByEmail users email with
    | none => (401, "Invalid email or password")
    | some u =>
        if verify password u.passwordHash then (200, "Login successful")
        else (401, "Invalid email or password")

/-! ### Create path message validation (src/models/Thought.js lines
4-10): the schema trims, requires a non-empty value, and bounds the
length between 5 and 140.  These validators run on save (create), but
findByIdAndUpdate (edit) skips them. -/

/-- Schema validators of the message field on the stored (trimmed)
value. -/
def messageValidatorsPass (stored : List Char) : Bool :=
  decide (stored ≠ []) && decide (5 ≤ stored.length) && decide (stored.length ≤ 140)

/-- POST /thoughts (src/routes/thoughts.js lines 108-167): empty
trimmed message gives 400 from the handler pre-check; saving the new
document runs the schema validators, mapping failures to 422; success
gives the created document (201). -/
def createThoughtRoute (owner : Option UserId) (msg : List Char) (category : String) :
    Except Nat Thought :=
  if jsTrim msg = [] then Except.error 400
  else
    if messageValidatorsPass (jsTrim msg) then
      Except.ok (createThought msg category owner)
    else Except.error 422

/-! ### Concrete sample data for witnesses and counterexamples -/

/-- Lowercase letter a, for building messages of a given length. -/
def aChar : Char := Char.ofNat 97

/-- Concrete message of exactly n characters. -/
def msgOfLength (n : Nat) : List Char := List.replicate n aChar

/-- Concrete thought with two likers, satisfying the hearts invariant. -/
def thoughtTwoLikes : Thought :=
  { message := "Nice day today".toList, category := "General", hearts := 2,
    likedBy := [1, 2], owner := some 1 }

/-- Concrete anonymous thought (owner null). -/
def thoughtAnon : Thought :=
  { message := "Anonymous happy thought".toList, category := "General", hearts := 0,
    likedBy := [], owner := none }

/-- Concrete thought owned by user 1 with no likes. -/
def thoughtOwned : Thought :=
  { message := "Owned happy thought".toList, category := "General", hearts := 0,
    likedBy := [], owner := some 1 }

/-- Concrete desynchronized thought: hearts does not match likedBy. -/
def thoughtDesynced : Thought :=
  { message := "Desynced thought here".toList, category := "General", hearts := 5,
    likedBy := [], owner := none }

section LikeToggleLemmas

theorem contains_iff_mem (l : List UserId) (u : UserId) :
    l.contains u = true ↔ u ∈ l :=
  List.elem_iff

theorem filter_ne_eq_erase (l : List UserId) (u : UserId) (h : l.Nodup) :
    l.filter (fun v => v != u) = l.erase u :=
  (h.erase_eq_filter u).symm

theorem mem_filter_ne (l : List UserId) (u v : UserId) :
    v ∈ l.filter (fun w => w != u) ↔ v ∈ l ∧ v ≠ u := by
  simp [List.mem_filter]

/-- One route toggle preserves the pair of invariants: likedBy has no
duplicates and hearts equals the length of likedBy. -/
theorem toggleLikeRoute_preserves (u : UserId) (t : Thought)
    (hnd : t.likedBy.Nodup) (hh : t.hearts = (t.likedBy.length : Int)) :
    (toggleLikeRoute u t).likedBy.Nodup ∧
      (toggleLikeRoute u t).hearts = ((toggleLikeRoute u t).likedBy.length : Int) := by
  unfold toggleLikeRoute hasLiked unlikeUpdate likeUpdate
  by_cases hmem : u ∈ t.likedBy
  · rw [if_pos ((contains_iff_mem _ _).2 hmem)]
    simp only
    constructor
    · exact hnd.filter _
    · rw [filter_ne_eq_erase _ _ hnd, List.length_erase_of_mem hmem, hh]
      have hpos : 0 < t.likedBy.length := List.length_pos_of_mem hmem
      omega
  · have hc : t.likedBy.contains u = false := by
      rw [← Bool.not_eq_true, contains_iff_mem]; exact hmem
    rw [if_neg (fun h => hmem ((contains_iff_mem _ _).1 h))]
    simp only [hc, if_neg]
    constructor
    · simpa [List.nodup_append] using ⟨hnd, hmem⟩
    · simp [hh]

end LikeToggleLemmas

section BranchEquations

theorem hasLiked_true_iff (t : Thought) (u : UserId) :
    hasLiked t u = true ↔ u ∈ t.likedBy :=
  contains_iff_mem _ _

theorem toggleLikeRoute_of_mem {u : UserId} {t : Thought} (h : u ∈ t.likedBy) :
    toggleLikeRoute u t = unlikeUpdate u t := by
  unfold toggleLikeRoute
  rw [if_pos ((hasLiked_true_iff t u).2 h)]

theorem toggleLikeRoute_of_not_mem {u : UserId} {t : Thought} (h : u ∉ t.likedBy) :
    toggleLikeRoute u t = likeUpdate u t := by
  unfold toggleLikeRoute
  rw [if_neg (fun hc => h ((hasLiked_true_iff t u).1 hc))]

theorem likeUpdate_of_not_mem {u : UserId} {t : Thought} (h : u ∉ t.likedBy) :
    likeUpdate u t =
      { t with likedBy := t.likedBy ++ [u], hearts := t.hearts + 1 } := by
  unfold likeUpdate
  rw [if_neg]
  intro hc
  exact h ((contains_iff_mem _ _).1 hc)

theorem filter_ne_self_of_not_mem (l : List UserId) (u : UserId) (h : u ∉ l) :
    l.filter (fun v => v != u) = l := by
  apply List.filter_eq_self.2
  intro a ha
  simp only [bne_iff_ne, ne_eq, decide_eq_true_eq]
  exact fun e => h (e ▸ ha)

theorem filter_ne_append_singleton (l : List UserId) (u : UserId) (h : u ∉ l) :
    (l ++ [u]).filter (fun v => v != u) = l := by
  rw [List.filter_append, filter_ne_self_of_not_mem l u h]
  simp

theorem not_mem_filter_ne (l : List UserId) (u : UserId) :
    u ∉ l.filter (fun v => v != u) := by
  intro h
  rcases (mem_filter_ne l u u).1 h with ⟨-, hne⟩
  exact hne rfl

end BranchEquations

section DoubleToggle

/-- Double toggle through the route handler restores hearts exactly and
likedBy as a set. -/
theorem routeDoubleToggle (u : UserId) (t : Thought) :
    (toggleLikeRoute u (toggleLikeRoute u t)).hearts = t.hearts ∧
      ∀ v, v ∈ (toggleLikeRoute u (toggleLikeRoute u t)).likedBy ↔ v ∈ t.likedBy := by
  by_cases hmem : u ∈ t.likedBy
  · rw [toggleLikeRoute_of_mem hmem]
    have h1 : (unlikeUpdate u t).likedBy = t.likedBy.filter (fun v => v != u) := rfl
    have hnm : u ∉ (unlikeUpdate u t).likedBy := by
      rw [h1]; exact not_mem_filter_ne _ _
    rw [toggleLikeRoute_of_not_mem hnm, likeUpdate_of_not_mem hnm]
    constructor
    · show (unlikeUpdate u t).hearts + 1 = t.hearts
      show t.hearts - 1 + 1 = t.hearts
      omega
    · intro v
      show v ∈ (unlikeUpdate u t).likedBy ++ [u] ↔ v ∈ t.likedBy
      rw [h1, List.mem_append, mem_filter_ne]
      constructor
      · rintro (⟨hv, -⟩ | hv)
        · exact hv
        · simp at hv; exact hv ▸ hmem
      · intro hv
        by_cases hvu : v = u
        · right; simp [hvu]
        · left; exact ⟨hv, hvu⟩
  · have hmem2 : u ∈ (likeUpdate u t).likedBy := by
      rw [likeUpdate_of_not_mem hmem]
      simp
    rw [toggleLikeRoute_of_not_mem hmem, toggleLikeRoute_of_mem hmem2]
    have hlb : (likeUpdate u t).likedBy = t.likedBy ++ [u] := by
      rw [likeUpdate_of_not_mem hmem]
    have hh1 : (likeUpdate u t).hearts = t.hearts + 1 := by
      rw [likeUpdate_of_not_mem hmem]
    constructor
    · show (likeUpdate u t).hearts - 1 = t.hearts
      omega
    · intro v
      show v ∈ (likeUpdate u t).likedBy.filter (fun w => w != u) ↔ v ∈ t.likedBy
      rw [hlb, filter_ne_append_singleton _ _ hmem]

/-- Double toggle through the toggleLike instance method (save path with
the pre-save hook) restores hearts exactly and likedBy as a set, on
documents satisfying the set and count invariants. -/
theorem methodDoubleToggle (u : UserId) (t : Thought)
    (hnd : t.likedBy.Nodup) (hh : t.hearts = (t.likedBy.length : Int)) :
    (toggleLikeMethod u (toggleLikeMethod u t)).hearts = t.hearts ∧
      ∀ v, v ∈ (toggleLikeMethod u (toggleLikeMethod u t)).likedBy ↔ v ∈ t.likedBy := by
  by_cases hmem : u ∈ t.likedBy
  · have hc1 : t.likedBy.contains u = true := (contains_iff_mem _ _).2 hmem
    have e1 : toggleLikeMethod u t =
        { t with likedBy := t.likedBy.filter (fun v => v != u),
                 hearts := ((t.likedBy.filter (fun v => v != u)).length : Int) } := by
      unfold toggleLikeMethod toggleLikeCore preSaveSync
      rw [if_pos hc1]
    have hnm : u ∉ t.likedBy.filter (fun v => v != u) := not_mem_filter_ne _ _
    have hc2 : (t.likedBy.filter (fun v => v != u)).contains u = false := by
      rw [← Bool.not_eq_true, contains_iff_mem]; exact hnm
    have e2 : toggleLikeMethod u (toggleLikeMethod u t) =
        { t with likedBy := t.likedBy.filter (fun v => v != u) ++ [u],
                 hearts := ((t.likedBy.filter (fun v => v != u) ++ [u]).length : Int) } := by
      rw [e1]
      unfold toggleLikeMethod toggleLikeCore preSaveSync
      simp only [hc2, Bool.false_eq_true, if_false]
    rw [e2]
    constructor
    · show ((t.likedBy.filter (fun v => v != u) ++ [u]).length : Int) = t.hearts
      rw [List.length_append, filter_ne_eq_erase _ _ hnd,
        List.length_erase_of_mem hmem, hh]
      have hpos : 0 < t.likedBy.length := List.length_pos_of_mem hmem
      simp only [List.length_singleton]
      omega
    · intro v
      show v ∈ t.likedBy.filter (fun w => w != u) ++ [u] ↔ v ∈ t.likedBy
      rw [List.mem_append, mem_filter_ne]
      constructor
      · rintro (⟨hv, -⟩ | hv)
        · exact hv
        · simp at hv; exact hv ▸ hmem
      · intro hv
        by_cases hvu : v = u
        · right; simp [hvu]
        · left; exact ⟨hv, hvu⟩
  · have hc1 : t.likedBy.contains u = false := by
      rw [← Bool.not_eq_true, contains_iff_mem]; exact hmem
    have e1 : toggleLikeMethod u t =
        { t with likedBy := t.likedBy ++ [u],
                 hearts := ((t.likedBy ++ [u]).length : Int) } := by
      unfold toggleLikeMethod toggleLikeCore preSaveSync
      simp only [hc1, Bool.false_eq_true, if_false]
    have hmem2 : u ∈ t.likedBy ++ [u] := by simp
    have hc2 : (t.likedBy ++ [u]).contains u = true := (contains_iff_mem _ _).2 hmem2
    have e2 : toggleLikeMethod u (toggleLikeMethod u t) =
        { t with likedBy := (t.likedBy ++ [u]).filter (fun v => v != u),
                 hearts := (((t.likedBy ++ [u]).filter (fun v => v != u)).length : Int) } := by
      rw [e1]
      unfold toggleLikeMethod toggleLikeCore preSaveSync
      rw [if_pos hc2]
    rw [e2, filter_ne_append_singleton _ _ hmem]
    exact ⟨hh.symm, fun v => Iff.rfl⟩

end DoubleToggle

section TwoPhaseExecution

/-- Invariant carried through a valid interleaving of one like request
per distinct user on an initially unliked thought: likedBy is exactly
the set of users whose write phase has executed, hearts counts them,
and every recorded decision is a like decision. -/
def InvTwoPhase (us : List UserId) (st : UserId → Phase) (s : ExecState) : Prop :=
  s.t.likedBy.Nodup ∧
  (∀ v, v ∈ s.t.likedBy ↔ v ∈ us ∧ st v = Phase.done) ∧
  s.t.hearts = (s.t.likedBy.length : Int) ∧
  (∀ v, s.dec v = some false ↔ v ∈ us ∧ st v ≠ Phase.idle)

theorem invTwoPhase_read {us : List UserId} {st : UserId → Phase} {s : ExecState}
    {u : UserId} (hu : u ∈ us) (hidle : st u = Phase.idle)
    (hinv : InvTwoPhase us st s) :
    InvTwoPhase us (fun v => if v = u then Phase.readDone else st v)
      (stepEvent s (Event.read u)) := by
  obtain ⟨hnd, hmem, hh, hdec⟩ := hinv
  have hnotin : u ∉ s.t.likedBy := by
    intro hin
    rcases (hmem u).1 hin with ⟨-, hdone⟩
    rw [hidle] at hdone
    exact Phase.noConfusion hdone
  have hread : hasLiked s.t u = false := by
    rw [← Bool.not_eq_true, hasLiked_true_iff]
    exact hnotin
  refine ⟨hnd, ?_, hh, ?_⟩
  · intro v
    show v ∈ s.t.likedBy ↔ v ∈ us ∧ (if v = u then Phase.readDone else st v) = Phase.done
    by_cases hv : v = u
    · subst hv
      simp only [if_pos rfl]
      constructor
      · exact fun hin => absurd hin hnotin
      · rintro ⟨-, hdone⟩
        exact absurd hdone (by intro h; exact Phase.noConfusion h)
    · rw [if_neg hv]
      exact hmem v
  · intro v
    show (if v = u then some (hasLiked s.t u) else s.dec v) = some false ↔
      v ∈ us ∧ (if v = u then Phase.readDone else st v) ≠ Phase.idle
    by_cases hv : v = u
    · subst hv
      rw [if_pos rfl, if_pos rfl, hread]
      simp [hu]
    · rw [if_neg hv, if_neg hv]
      exact hdec v

theorem invTwoPhase_write {us : List UserId} {st : UserId → Phase} {s : ExecState}
    {u : UserId} (hu : u ∈ us) (hrd : st u = Phase.readDone)
    (hinv : InvTwoPhase us st s) :
    InvTwoPhase us (fun v => if v = u then Phase.done else st v)
      (stepEvent s (Event.write u)) := by
  obtain ⟨hnd, hmem, hh, hdec⟩ := hinv
  have hdecu : s.dec u = some false := by
    rw [hdec u]
    refine ⟨hu, ?_⟩
    rw [hrd]
    intro h
    exact Phase.noConfusion h
  have hnotin : u ∉ s.t.likedBy := by
    intro hin
    rcases (hmem u).1 hin with ⟨-, hdone⟩
    rw [hrd] at hdone
    exact Phase.noConfusion hdone
  have hstep : stepEvent s (Event.write u) = { s with t := likeUpdate u s.t } := by
    simp only [stepEvent, hdecu]
  rw [hstep]
  have hlb : (likeUpdate u s.t).likedBy = s.t.likedBy ++ [u] := by
    rw [likeUpdate_of_not_mem hnotin]
  have hht : (likeUpdate u s.t).hearts = s.t.hearts + 1 := by
    rw [likeUpdate_of_not_mem hnotin]
  refine ⟨?_, ?_, ?_, ?_⟩
  · show (likeUpdate u s.t).likedBy.Nodup
    rw [hlb]
    simpa [List.nodup_append] using ⟨hnd, hnotin⟩
  · intro v
    show v ∈ (likeUpdate u s.t).likedBy ↔
      v ∈ us ∧ (if v = u then Phase.done else st v) = Phase.done
    rw [hlb, List.mem_append]
    by_cases hv : v = u
    · subst hv
      simp [hu]
    · rw [if_neg hv]
      simp only [List.mem_singleton, hv, or_false]
      exact hmem v
  · show (likeUpdate u s.t).hearts = ((likeUpdate u s.t).likedBy.length : Int)
    rw [hlb, hht, List.length_append, hh]
    simp only [List.length_singleton]
    omega
  · intro v
    show s.dec v = some false ↔
      v ∈ us ∧ (if v = u then Phase.done else st v) ≠ Phase.idle
    by_cases hv : v = u
    · subst hv
      rw [if_pos rfl, hdecu]
      simp [hu]
    · rw [if_neg hv]
      exact hdec v

/-- Every valid complete interleaving ends with likedBy equal (as a
nodup list) to the users that ran, and hearts equal to its length. -/
theorem runEvents_invariant {us : List UserId} :
    ∀ {st : UserId → Phase} {evs : List Event}, ValidFrom us st evs →
    ∀ s : ExecState, InvTwoPhase us st s →
      (runEvents s evs).t.likedBy.Nodup ∧
      (∀ v, v ∈ (runEvents s evs).t.likedBy ↔ v ∈ us) ∧
      (runEvents s evs).t.hearts = ((runEvents s evs).t.likedBy.length : Int) := by
  intro st evs hvf
  induction hvf with
  | stop st hdone =>
      intro s hinv
      obtain ⟨hnd, hmem, hh, -⟩ := hinv
      have h0 : runEvents s ([] : List Event) = s := rfl
      rw [h0]
      refine ⟨hnd, ?_, hh⟩
      intro v
      rw [hmem v]
      constructor
      · exact fun h => h.1
      · exact fun h => ⟨h, hdone v h⟩
  | read st u evs hu hidle hvf ih =>
      intro s hinv
      have : runEvents s (Event.read u :: evs) =
          runEvents (stepEvent s (Event.read u)) evs := rfl
      rw [this]
      exact ih _ (invTwoPhase_read hu hidle hinv)
  | write st u evs hu hrd hvf ih =>
      intro s hinv
      have : runEvents s (Event.write u :: evs) =
          runEvents (stepEvent s (Event.write u)) evs := rfl
      rw [this]
      exact ih _ (invTwoPhase_write hu hrd hinv)

end TwoPhaseExecution

section CeilDivLemmas

/-- Characterization of jsCeilDiv for positive divisors: it is the least
number of pages covering the records, and page-times-limit bounds
characterize the strict comparison against it. -/
theorem jsCeilDiv_least (tc l : Nat) (hl : 0 < l) :
    tc ≤ jsCeilDiv tc l * l ∧ (∀ k, tc ≤ k * l → jsCeilDiv tc l ≤ k) ∧
    (∀ p, p < jsCeilDiv tc l ↔ p * l < tc) := by
  have hdm := Nat.div_add_mod (tc + l - 1) l
  have hmlt : (tc + l - 1) % l < l := Nat.mod_lt _ hl
  have hq : jsCeilDiv tc l = (tc + l - 1) / l := rfl
  refine ⟨?_, ?_, ?_⟩
  · have h1 : l * ((tc + l - 1) / l) = ((tc + l - 1) / l) * l := Nat.mul_comm _ _
    rw [hq]
    omega
  · intro k hk
    rw [hq]
    by_contra hcon
    push_neg at hcon
    have h2 : l * (k + 1) ≤ l * ((tc + l - 1) / l) := Nat.mul_le_mul_left l hcon
    have h3 : l * (k + 1) = l * k + l := Nat.mul_succ l k
    have h4 : l * k = k * l := Nat.mul_comm _ _
    omega
  · intro p
    rw [hq]
    constructor
    · intro hp
      have h2 : l * (p + 1) ≤ l * ((tc + l - 1) / l) := Nat.mul_le_mul_left l hp
      have h3 : l * (p + 1) = l * p + l := Nat.mul_succ l p
      have h4 : l * p = p * l := Nat.mul_comm _ _
      omega
    · intro hp
      by_contra hcon
      push_neg at hcon
      have h2 : l * ((tc + l - 1) / l) ≤ l * p := Nat.mul_le_mul_left l hcon
      have h4 : l * p = p * l := Nat.mul_comm _ _
      omega

end CeilDivLemmas

section Claims

/-- Claim C1: for every thought whose likedBy set has no duplicates and
whose hearts field equals its size (as holds for every thought the API
creates), after any sequence of like-toggle operations through the
POST /thoughts/:id/like handler, performed one after the other by
authenticated users, the hearts field equals the number of entries in
the likedBy set. -/
theorem spec_C1_hearts_matches_likedBy (us : List UserId) (t : Thought)
    (hnd : t.likedBy.Nodup) (hh : t.hearts = (t.likedBy.length : Int)) :
    (us.foldl (fun a u => toggleLikeRoute u a) t).hearts =
      ((us.foldl (fun a u => toggleLikeRoute u a) t).likedBy.length : Int) := by
  induction us generalizing t with
  | nil => simpa using hh
  | cons u us ih =>
      simp only [List.foldl_cons]
      obtain ⟨h1, h2⟩ := toggleLikeRoute_preserves u t hnd hh
      exact ih _ h1 h2

/-- Witness for C1 at a concrete thought and toggle sequence. -/
theorem spec_C1_witness :
    thoughtOwned.likedBy.Nodup ∧
    thoughtOwned.hearts = (thoughtOwned.likedBy.length : Int) ∧
    ([1, 2, 1, 3].foldl (fun a u => toggleLikeRoute u a) thoughtOwned).hearts =
      (([1, 2, 1, 3].foldl (fun a u => toggleLikeRoute u a) thoughtOwned).likedBy.length : Int) :=
  ⟨by decide, by decide,
    spec_C1_hearts_matches_likedBy [1, 2, 1, 3] thoughtOwned (by decide) (by decide)⟩

/-- Counterexample to claim C2: the handler reads membership with
findById and writes with a separate findByIdAndUpdate.  Interleaving
the two phases of two duplicate requests from the same user
(read, read, write, write) leaves hearts 2 with a single liker — a
state no sequence of the claimed atomic check-and-update steps can
produce (two sequential toggles return hearts to 0) — so the membership
check and the update are not one effectively atomic step. -/
theorem spec_C2_counterexample :
    (runEvents (freshExecState thoughtOwned)
        [Event.read 1, Event.read 1, Event.write 1, Event.write 1]).t.hearts = 2 ∧
    (runEvents (freshExecState thoughtOwned)
        [Event.read 1, Event.read 1, Event.write 1, Event.write 1]).t.likedBy = [1] ∧
    (runEvents (freshExecState thoughtOwned)
        [Event.read 1, Event.read 1, Event.write 1, Event.write 1]).t.hearts ≠
      ((runEvents (freshExecState thoughtOwned)
        [Event.read 1, Event.read 1, Event.write 1, Event.write 1]).t.likedBy.length : Int) ∧
    (toggleLikeRoute 1 (toggleLikeRoute 1 thoughtOwned)).hearts = 0 := by
  refine ⟨?_, ?_, ?_, ?_⟩ <;> decide

/-- Claim C2 as amended: the like handler performs the membership read
(findById) and the update (findByIdAndUpdate with addToSet or pull plus
inc) as two separate steps; the update itself is atomic, so every
complete interleaving of one toggle per user from N distinct users on a
thought with no prior likes still converges to hearts = N, with likedBy
holding exactly those users; duplicate concurrent requests from a
single user, however, can leave hearts out of sync (see the
counterexample). -/
theorem spec_C2_distinct_users_converge (us : List UserId) (t : Thought)
    (hus : us.Nodup) (hlb : t.likedBy = []) (hh : t.hearts = 0)
    (evs : List Event) (hvf : ValidFrom us (fun _ => Phase.idle) evs) :
    (runEvents (freshExecState t) evs).t.hearts = (us.length : Int) ∧
    ∀ v, v ∈ (runEvents (freshExecState t) evs).t.likedBy ↔ v ∈ us := by
  have hinv : InvTwoPhase us (fun _ => Phase.idle) (freshExecState t) := by
    refine ⟨?_, ?_, ?_, ?_⟩
    · show t.likedBy.Nodup
      rw [hlb]
      exact List.nodup_nil
    · intro v
      show v ∈ t.likedBy ↔ v ∈ us ∧ Phase.idle = Phase.done
      rw [hlb]
      simp
    · show t.hearts = (t.likedBy.length : Int)
      rw [hlb, hh]
      rfl
    · intro v
      show (none : Option Bool) = some false ↔ v ∈ us ∧ Phase.idle ≠ Phase.idle
      simp
  obtain ⟨hnd2, hmem, hhearts⟩ := runEvents_invariant hvf _ hinv
  refine ⟨?_, hmem⟩
  rw [hhearts]
  congr 1
  exact ((List.perm_ext_iff_of_nodup hnd2 hus).2 hmem).length_eq

/-- Witness for the amended C2 at two distinct users and a fully
interleaved schedule (both reads before both writes). -/
theorem spec_C2_witness :
    ([1, 2] : List UserId).Nodup ∧ thoughtOwned.likedBy = [] ∧ thoughtOwned.hearts = 0 ∧
    (runEvents (freshExecState thoughtOwned)
        [Event.read 1, Event.read 2, Event.write 2, Event.write 1]).t.hearts = 2 := by
  have hvf : ValidFrom [1, 2] (fun _ => Phase.idle)
      [Event.read 1, Event.read 2, Event.write 2, Event.write 1] := by
    apply ValidFrom.read _ 1 _ (by simp) rfl
    apply ValidFrom.read _ 2 _ (by simp) rfl
    apply ValidFrom.write _ 2 _ (by simp) rfl
    apply ValidFrom.write _ 1 _ (by simp) rfl
    apply ValidFrom.stop
    intro u hu
    fin_cases hu <;> rfl
  have h := spec_C2_distinct_users_converge [1, 2] thoughtOwned (by decide) rfl rfl
    [Event.read 1, Event.read 2, Event.write 2, Event.write 1] hvf
  exact ⟨by decide, rfl, rfl, h.1⟩

/-- Claim C3: toggling the same user twice in immediate succession
returns hearts to exactly its prior value and likedBy to the same set,
both through the route handler (unconditionally) and through the
toggleLike instance method (on documents satisfying the set and count
invariants, as all reachable documents do). -/
theorem spec_C3_double_toggle_identity (u : UserId) (t : Thought) :
    ((toggleLikeRoute u (toggleLikeRoute u t)).hearts = t.hearts ∧
      (∀ v, v ∈ (toggleLikeRoute u (toggleLikeRoute u t)).likedBy ↔ v ∈ t.likedBy)) ∧
    (t.likedBy.Nodup → t.hearts = (t.likedBy.length : Int) →
      (toggleLikeMethod u (toggleLikeMethod u t)).hearts = t.hearts ∧
        ∀ v, v ∈ (toggleLikeMethod u (toggleLikeMethod u t)).likedBy ↔ v ∈ t.likedBy) :=
  ⟨routeDoubleToggle u t, fun hnd hh => methodDoubleToggle u t hnd hh⟩

/-- Witness for C3 at a concrete liked thought. -/
theorem spec_C3_witness :
    thoughtTwoLikes.likedBy.Nodup ∧
    thoughtTwoLikes.hearts = (thoughtTwoLikes.likedBy.length : Int) ∧
    (toggleLikeMethod 1 (toggleLikeMethod 1 thoughtTwoLikes)).hearts = thoughtTwoLikes.hearts :=
  ⟨by decide, by decide,
    ((spec_C3_double_toggle_identity 1 thoughtTwoLikes).2 (by decide) (by decide)).1⟩

/-- Claim C4 (code bug): the delete handler and the non-null ownership
cases behave as claimed, but a PUT on an anonymous (owner null) thought
returns 500, not 403: the temporary debug logging at
src/routes/thoughts.js line 293 dereferences thought.owner._id before
the ownership check runs, throwing a TypeError that the catch block
maps to 500.  The thought is unchanged in every non-success case. -/
theorem spec_C4_anonymous_put_gives_500 :
    putThoughtHandler thoughtAnon 1 "Perfectly valid message".toList = (500, thoughtAnon) ∧
    deleteThoughtHandler thoughtAnon 1 = (403, some thoughtAnon) ∧
    putThoughtHandler thoughtOwned 2 "Perfectly valid message".toList = (403, thoughtOwned) ∧
    deleteThoughtHandler thoughtOwned 2 = (403, some thoughtOwned) ∧
    (putThoughtHandler thoughtOwned 1 "Perfectly valid message".toList).1 = 200 ∧
    (∀ (t : Thought) (uid : UserId) (msg : List Char),
      (putThoughtHandler t uid msg).1 = 200 → t.owner = some uid) ∧
    (∀ (t : Thought) (uid : UserId),
      (deleteThoughtHandler t uid).1 = 200 → t.owner = some uid) := by
  refine ⟨by decide, by decide, by decide, by decide, by decide, ?_, ?_⟩
  · intro t uid msg h
    obtain ⟨m, c, hr, lb, ow⟩ := t
    unfold putThoughtHandler at h
    by_cases htrim : jsTrim msg = []
    · rw [if_pos htrim] at h
      simp at h
    · rw [if_neg htrim] at h
      cases ow with
      | none => simp at h
      | some o =>
          show some o = some uid
          by_cases ho : o = uid
          · rw [ho]
          · simp only [ho, if_false] at h
            simp at h
  · intro t uid h
    obtain ⟨m, c, hr, lb, ow⟩ := t
    unfold deleteThoughtHandler at h
    cases ow with
    | none => simp at h
    | some o =>
        show some o = some uid
        by_cases ho : o = uid
        · rw [ho]
        · simp only [ho, if_false] at h
          simp at h

/-- Counterexample to claim C5: a sort parameter naming a field outside
the sortable allow-list (here owner) is rejected with 400 by the
validateThoughtsQuery middleware before the handler can fall back to
the default sort, so the request does not return 200. -/
theorem spec_C5_counterexample :
    allowedSortFields.contains "owner" = false ∧
    validSortFields.contains "owner" = false ∧
    listThoughtsSortOutcome (some "owner") = Except.error 400 :=
  ⟨by decide, by decide, rfl⟩

/-- Claim C5 as amended: a sort field inside the validation allow-list
(hearts, createdAt, updatedAt, category, _id, message) but outside the
handler sortable allow-list (createdAt, updatedAt, hearts, category)
falls back silently to the default newest-first sort with a 200
response; a sort field outside the validation allow-list is rejected
with 400 before the handler runs. -/
theorem spec_C5_sort_fallback_amended (s : String)
    (hvalid : sortParamValid (some s) = true)
    (hnot : allowedSortFields.contains (sortFieldName s) = false) :
    listThoughtsSortOutcome (some s) = Except.ok ("createdAt", -1) ∧
    ∀ s2 : Option String, sortParamValid s2 = false →
      listThoughtsSortOutcome s2 = Except.error 400 := by
  constructor
  · have hbuild : buildSortObject (some s) = ("createdAt", -1) := by
      simp only [buildSortObject]
      by_cases hs : s = ""
      · rw [if_pos hs]
      · rw [if_neg hs]
        simp only [hnot, Bool.false_eq_true, if_false]
    simp only [listThoughtsSortOutcome, hvalid, if_true, hbuild]
  · intro s2 h
    simp only [listThoughtsSortOutcome, h, Bool.false_eq_true, if_false]

/-- Witness for the amended C5: the field _id passes query validation
but is not in the sortable allow-list, so the request succeeds with the
default newest-first sort. -/
theorem spec_C5_witness :
    sortParamValid (some "_id") = true ∧
    allowedSortFields.contains (sortFieldName "_id") = false ∧
    listThoughtsSortOutcome (some "_id") = Except.ok ("createdAt", -1) :=
  ⟨by decide, by decide,
    (spec_C5_sort_fallback_amended "_id" (by decide) (by decide)).1⟩

/-- Counterexample to claim C6: numeric page and limit values outside
the bounds are not clamped; the validateThoughtsQuery middleware
rejects them with 400 (page 0, limit 200, and negative page shown), so
the request does not yield a successful response with clamped values. -/
theorem spec_C6_counterexample :
    listThoughtsPageOutcome (QueryParam.numP 0) QueryParam.absentP = Except.error 400 ∧
    listThoughtsPageOutcome QueryParam.absentP (QueryParam.numP 200) = Except.error 400 ∧
    listThoughtsPageOutcome (QueryParam.numP (-3)) (QueryParam.numP 0) = Except.error 400 :=
  ⟨rfl, rfl, rfl⟩

/-- Claim C6 as amended: page and limit are not clamped; the validation
middleware rejects page below 1 and limit outside 1..100 with 400, and
absent parameters default to page 1 and limit 20 in the handler, so
every request that reaches the handler computes a page of at least 1, a
limit between 1 and 100, and skip = (page - 1) * limit. -/
theorem spec_C6_validation_bounds_amended (page limit : QueryParam)
    (pg lim skip : Int)
    (h : listThoughtsPageOutcome page limit = Except.ok (pg, lim, skip)) :
    1 ≤ pg ∧ 1 ≤ lim ∧ lim ≤ 100 ∧ skip = (pg - 1) * lim := by
  unfold listThoughtsPageOutcome at h
  by_cases hv : (validatePageParam page && validateLimitParam limit) = true
  · rw [if_pos hv] at h
    rw [Bool.and_eq_true] at hv
    obtain ⟨hp, hl⟩ := hv
    have hc := Except.ok.inj h
    unfold calculatePagination at hc
    obtain ⟨h1, h2, h3⟩ : jsOrDefault page 1 = pg ∧ jsOrDefault limit 20 = lim ∧
        (jsOrDefault page 1 - 1) * jsOrDefault limit 20 = skip := by
      exact ⟨congrArg Prod.fst hc, congrArg Prod.fst (congrArg Prod.snd hc),
        congrArg Prod.snd (congrArg Prod.snd hc)⟩
    refine ⟨?_, ?_, ?_, ?_⟩
    · rw [← h1]
      match page, hp with
      | QueryParam.absentP, _ => decide
      | QueryParam.nanP, hp => exact absurd hp (by decide)
      | QueryParam.numP n, hp =>
          simp only [validatePageParam, decide_eq_true_eq] at hp
          simp only [jsOrDefault]
          rw [if_neg (by omega)]
          exact hp
    · rw [← h2]
      match limit, hl with
      | QueryParam.absentP, _ => decide
      | QueryParam.nanP, hl => exact absurd hl (by decide)
      | QueryParam.numP n, hl =>
          simp only [validateLimitParam, Bool.and_eq_true, decide_eq_true_eq] at hl
          simp only [jsOrDefault]
          rw [if_neg (by omega)]
          exact hl.1
    · rw [← h2]
      match limit, hl with
      | QueryParam.absentP, _ => decide
      | QueryParam.nanP, hl => exact absurd hl (by decide)
      | QueryParam.numP n, hl =>
          simp only [validateLimitParam, Bool.and_eq_true, decide_eq_true_eq] at hl
          simp only [jsOrDefault]
          rw [if_neg (by omega)]
          exact hl.2
    · rw [← h1, ← h2, ← h3]
  · rw [if_neg hv] at h
    exact absurd h (by simp)

/-- Witness for the amended C6 at page 2, limit 50. -/
theorem spec_C6_witness :
    listThoughtsPageOutcome (QueryParam.numP 2) (QueryParam.numP 50) =
      Except.ok (2, 50, 50) ∧
    ((1 : Int) ≤ 2 ∧ (1 : Int) ≤ 50 ∧ (50 : Int) ≤ 100 ∧ (50 : Int) = (2 - 1) * 50) :=
  ⟨rfl, spec_C6_validation_bounds_amended (QueryParam.numP 2) (QueryParam.numP 50) 2 50 50 rfl⟩

/-- Claim C7: the pagination metadata of a list response has totalPages
equal to the ceiling of totalCount over limit (characterized as the
least page count covering all matching records), hasNextPage true iff
the current page times the limit still leaves matching records (iff
page is below the ceiling), and hasPrevPage true iff page exceeds 1. -/
theorem spec_C7_pagination_metadata (page totalCount limit : Nat) (hl : 0 < limit) :
    (createPaginationMetadata page totalCount limit).totalPages = jsCeilDiv totalCount limit ∧
    totalCount ≤ (createPaginationMetadata page totalCount limit).totalPages * limit ∧
    (∀ k, totalCount ≤ k * limit →
      (createPaginationMetadata page totalCount limit).totalPages ≤ k) ∧
    ((createPaginationMetadata page totalCount limit).hasNextPage = true ↔
      page * limit < totalCount) ∧
    ((createPaginationMetadata page totalCount limit).hasPrevPage = true ↔ 1 < page) := by
  obtain ⟨h1, h2, h3⟩ := jsCeilDiv_least totalCount limit hl
  refine ⟨rfl, h1, h2, ?_, ?_⟩
  · show decide (page < jsCeilDiv totalCount limit) = true ↔ page * limit < totalCount
    rw [decide_eq_true_eq]
    exact h3 page
  · show decide (1 < page) = true ↔ 1 < page
    rw [decide_eq_true_eq]

/-- Witness for C7 at page 2, 45 records, limit 20 (totalPages 3). -/
theorem spec_C7_witness :
    0 < 20 ∧
    (createPaginationMetadata 2 45 20).totalPages = jsCeilDiv 45 20 ∧
    ((createPaginationMetadata 2 45 20).hasNextPage = true ↔ 2 * 20 < 45) :=
  ⟨by decide, (spec_C7_pagination_metadata 2 45 20 (by decide)).1,
    (spec_C7_pagination_metadata 2 45 20 (by decide)).2.2.2.1⟩

/-- Claim C8: for any password verifier and user store, a login with an
unknown email and a login with a known email but failing password
verification both return status 401 with the character-identical
message, so the responses reveal nothing about which case occurred. -/
theorem spec_C8_login_no_oracle (verify : String → String → Bool)
    (users : List StoredUser) (e1 p1 e2 p2 : String) (u : StoredUser)
    (he1 : e1 ≠ "") (hp1 : p1 ≠ "") (he2 : e2 ≠ "") (hp2 : p2 ≠ "")
    (hunknown : findOneByEmail users e1 = none)
    (hfound : findOneByEmail users e2 = some u)
    (hbad : verify p2 u.passwordHash = false) :
    loginHandler verify users e1 p1 = (401, "Invalid email or password") ∧
    loginHandler verify users e2 p2 = (401, "Invalid email or password") ∧
    loginHandler verify users e1 p1 = loginHandler verify users e2 p2 := by
  have h1 : loginHandler verify users e1 p1 = (401, "Invalid email or password") := by
    unfold loginHandler
    rw [if_neg (by simp [he1, hp1]), hunknown]
  have h2 : loginHandler verify users e2 p2 = (401, "Invalid email or password") := by
    unfold loginHandler
    rw [if_neg (by simp [he2, hp2]), hfound]
    simp only [hbad, Bool.false_eq_true, if_false]
  exact ⟨h1, h2, h1.trans h2.symm⟩

/-- Witness for C8 at a concrete store: one unknown email, one known
email with a rejecting verifier; both responses are the same pair. -/
theorem spec_C8_witness :
    findOneByEmail [{ email := "a@b.c", passwordHash := "hash" }] "x@y.z" = none ∧
    findOneByEmail [{ email := "a@b.c", passwordHash := "hash" }] "a@b.c" =
      some { email := "a@b.c", passwordHash := "hash" } ∧
    loginHandler (fun _ _ => false) [{ email := "a@b.c", passwordHash := "hash" }]
        "x@y.z" "pw" =
      loginHandler (fun _ _ => false) [{ email := "a@b.c", passwordHash := "hash" }]
        "a@b.c" "pw" :=
  ⟨by decide, by decide,
    (spec_C8_login_no_oracle (fun _ _ => false)
      [{ email := "a@b.c", passwordHash := "hash" }] "x@y.z" "pw" "a@b.c" "pw"
      { email := "a@b.c", passwordHash := "hash" }
      (by decide) (by decide) (by decide) (by decide)
      (by decide) (by decide) rfl).2.2⟩

/-- Claim C9 (code bug): on the create path the schema validators
enforce the boundaries exactly as claimed (4 characters rejected with
422, 5 and 140 accepted, 141 rejected with 422); but the edit path
(PUT /thoughts/:id) applies no length validation — findByIdAndUpdate
runs without schema validators and the route has no validation
middleware — so a trimmed message of 2 characters and one of 141
characters are both accepted with 200 and persisted, contradicting the
claim and the repository test expecting 422. -/
theorem spec_C9_edit_bypasses_length_validation :
    createThoughtRoute (some 1) (msgOfLength 4) "General" = Except.error 422 ∧
    (createThoughtRoute (some 1) (msgOfLength 5) "General").isOk = true ∧
    (createThoughtRoute (some 1) (msgOfLength 140) "General").isOk = true ∧
    createThoughtRoute (some 1) (msgOfLength 141) "General" = Except.error 422 ∧
    putThoughtHandler thoughtOwned 1 (msgOfLength 2) =
      (200, { thoughtOwned with message := msgOfLength 2 }) ∧
    putThoughtHandler thoughtOwned 1 (msgOfLength 141) =
      (200, { thoughtOwned with message := msgOfLength 141 }) := by
  refine ⟨rfl, rfl, rfl, rfl, by decide, by decide⟩

/-- Claim C10: every save-path persistence (creation and the toggleLike
instance method included) runs the pre-save hook, which overwrites
hearts with the length of likedBy regardless of the prior hearts value;
the findByIdAndUpdate updates used by the like route bypass the hook,
as the desynchronized concrete document shows. -/
theorem spec_C10_presave_sync :
    (∀ t : Thought, (preSaveSync t).hearts = (t.likedBy.length : Int)) ∧
    (∀ (msg : List Char) (c : String) (o : Option UserId),
      (createThought msg c o).hearts = ((createThought msg c o).likedBy.length : Int)) ∧
    (∀ (u : UserId) (t : Thought),
      (toggleLikeMethod u t).hearts = ((toggleLikeMethod u t).likedBy.length : Int)) ∧
    (likeUpdate 2 thoughtDesynced).hearts ≠
      ((likeUpdate 2 thoughtDesynced).likedBy.length : Int) := by
  refine ⟨fun t => rfl, fun msg c o => rfl, fun u t => rfl, by decide⟩

end Claims

end HappyThoughts
